import Mathlib

/-!
Verification of the workforce-management backend (Angee-web/workspaceBackend).

This file gives a shallow embedding of the monitoring planner, the efficiency
scoring helpers, the payment endpoints and jobs, and the attendance operations
of the repository, and proves or refutes the specified properties about them.

Times of day are modelled as minutes (the source compares `HH:mm` strings via
dayjs, which is ordered exactly like minute-of-day numbers).  Wall-clock
timestamps are modelled as rational numbers of hours (the source only ever
compares them and takes differences in hours).  Monetary amounts and balances
are rationals (JavaScript numbers on the non-NaN, finite inputs the record
store supplies).  Randomness (`Math.random`) is modelled by an explicit
oracle `pick : Nat -> Nat`; the source draws `Math.floor(Math.random()*len)`,
which is an arbitrary index below `len`, here `pick step % len`.
-/

namespace WB

/-- A break period with a start and an end time, in minutes of the day
(the source stores `HH:mm` strings, compared as times of day). -/
structure BreakPeriod where
  startTime : Nat
  endTime : Nat
deriving DecidableEq, Repr

/-- Embedding of `isWorkingHour` from `src/utils/helpers.js` (lines 36-62).
The source returns `false` when the current time `isBefore` the start or
`isAfter` the end (so both boundaries count as working), or when it is
strictly between the start and the end of some break period (`isAfter` the
break start and `isBefore` the break end). -/
def isWorkingHour (currentTime workStartTime workEndTime : Nat)
    (breakPeriods : List BreakPeriod) : Bool :=
  if currentTime < workStartTime ∨ workEndTime < currentTime then false
  else if breakPeriods.any fun b =>
      decide (b.startTime < currentTime ∧ currentTime < b.endTime) then false
  else true

/-- The list of candidate minutes built by `generateRandomMonitoringTimes`
(`src/utils/helpers.js` lines 78-91): the loop runs `i` from `0` to
`end.diff(start)` inclusive (no iteration when the difference is negative)
and keeps `start + i` when `isWorkingHour` accepts it. -/
def eligibleMinutes (workStartTime workEndTime : Nat)
    (breakPeriods : List BreakPeriod) : List Nat :=
  if workEndTime < workStartTime then []
  else
    ((List.range (workEndTime - workStartTime + 1)).map
        fun i => workStartTime + i).filter
      fun t => isWorkingHour t workStartTime workEndTime breakPeriods

/-- Embedding of the selection loop of `generateRandomMonitoringTimes`
(`src/utils/helpers.js` lines 94-101): repeatedly pick a random index into
the remaining pool, emit that element and `splice` it out, for
`min count pool.length` rounds.  The random index is `pick step % length`,
an arbitrary in-range index like `Math.floor(Math.random()*length)`. -/
def drawDistinct (pick : Nat → Nat) : Nat → List Nat → List Nat
  | 0, _ => []
  | _ + 1, [] => []
  | k + 1, a :: rest =>
    let pool := a :: rest
    let idx := pick 0 % pool.length
    pool.getD idx 0 :: drawDistinct (fun n => pick (n + 1)) k (pool.eraseIdx idx)

/-- Embedding of `generateRandomMonitoringTimes` from `src/utils/helpers.js`
(lines 72-106): draw from the eligible minutes without replacement, then
sort ascending.  The final `sort` is modelled by insertion sort, which
agrees with any sort on a duplicate-free list. -/
def generateRandomMonitoringTimes (pick : Nat → Nat)
    (workStartTime workEndTime : Nat) (breakPeriods : List BreakPeriod)
    (count : Nat) : List Nat :=
  List.insertionSort (· ≤ ·)
    (drawDistinct pick count
      (eligibleMinutes workStartTime workEndTime breakPeriods))

/-- Rounding to two decimal places, as `parseFloat(x.toFixed(2))` does on the
exactly-representable values that occur here. -/
def round2 (q : ℚ) : ℚ := (round (q * 100) : ℤ) / 100

/-- Embedding of `calculateEfficiency` from `src/utils/helpers.js`
(lines 114-117): `0` when `total` is falsy, otherwise
`(present / total) * 100` to two decimal places. -/
def calculateEfficiency (present total : Nat) : ℚ :=
  if total = 0 then 0 else round2 ((present : ℚ) / (total : ℚ) * 100)

/-- Embedding of `calculateDailyPayRate` from `src/utils/helpers.js`
(lines 23-26): `0` when either argument is falsy (missing or zero),
otherwise `monthlySalary / workingDaysPerMonth` to two decimal places.
A missing argument is `none`. -/
def calculateDailyPayRate (monthlySalary workingDaysPerMonth : Option ℚ) : ℚ :=
  match monthlySalary, workingDaysPerMonth with
  | some s, some d => if s = 0 ∨ d = 0 then 0 else round2 (s / d)
  | _, _ => 0

/-- One monitoring capture outcome pushed onto
`attendance.monitoringResults` (`src/jobs/scheduledTasks.js`). -/
structure MonitoringResult where
  time : ℚ
  isPresent : Bool
deriving DecidableEq, Repr

/-- An attendance record (`Attendance` documents as the controllers and jobs
use them): the owning employee, the calendar day, optional clock-in and
clock-out timestamps, the list of monitoring results, and whether a
progress report was submitted for the day. -/
structure AttendanceRecord where
  employee : Nat
  day : Nat
  clockInTime : Option ℚ := none
  clockOutTime : Option ℚ := none
  monitoringResults : List MonitoringResult := []
  progressReport : Bool := false
deriving DecidableEq, Repr

/-- The day efficiency as computed at payment creation
(`src/jobs/scheduledTasks.js` lines 310-316): count the monitoring results
flagged present and divide by the number of monitoring results. -/
def dayEfficiency (a : AttendanceRecord) : ℚ :=
  calculateEfficiency (a.monitoringResults.countP fun r => r.isPresent)
    a.monitoringResults.length

/-- Written from the wording of the spec, section 4.3, for comparison with
`calculateEfficiency`: the composite score of three capped sub-scores
(attendance completeness 30/15/0, presence rate
`round(50 * presentCount / plannedCaptureCount)`, reporting
completeness 20).  The repository computes no such composite. -/
def specCompositeScore (a : AttendanceRecord) (plannedCaptureCount : Nat) : ℤ :=
  (if a.clockInTime.isSome ∧ a.clockOutTime.isSome then 30
   else if a.clockInTime.isSome ∨ a.clockOutTime.isSome then 15 else 0)
  + (if plannedCaptureCount = 0 then 0
     else round ((50 * ((a.monitoringResults.countP fun r => r.isPresent) : ℚ))
        / (plannedCaptureCount : ℚ)))
  + (if a.progressReport then 20 else 0)

/-- A payment document, with the fields the controllers and jobs read and
write.  Statuses are the literal strings the source assigns. -/
structure Payment where
  employee : Nat
  company : Nat
  amount : ℚ
  day : Nat
  createdAt : ℚ
  status : String
  efficiency : ℚ := 0
  approvedBy : Option Nat := none
  approvedAt : Option ℚ := none
  declinedBy : Option Nat := none
  declinedAt : Option ℚ := none
  declineReason : Option String := none
  requiresAdminReview : Bool := false
  rejectedBy : Option Nat := none
  rejectedAt : Option ℚ := none
  transactionReference : Option Nat := none
  failureReason : Option String := none
  paymentDate : Option ℚ := none
  notes : Option String := none
deriving DecidableEq, Repr

/-- The employer action on a daily payment. -/
inductive PayAction where
  | approve
  | decline
deriving DecidableEq, Repr

/-- Embedding of `processDailyPayment` from
`src/controllers/paymentController.js` (lines 946-1026), the employer
approve/decline endpoint.  Checks, in source order: a decline must carry a
reason; the payment must belong to an employee of the caller company; the
call must be within one hour of the payment creation.  Approve then sets
the status to "approved" and records the actor and time; decline sets the
status to "declined", records actor, time and reason, and flags the payment
for admin review.  The endpoint never loads the company balance; the
`balance` argument is threaded through unchanged to make that explicit. -/
def processDailyPayment (now : ℚ) (actorId actorCompany : Nat)
    (action : PayAction) (reason : Option String)
    (p : Payment) (employeeCompany : Nat) (balance : ℚ) :
    Except String (Payment × ℚ) :=
  if action = .decline ∧ reason = none then
    .error "Reason is required when declining a payment"
  else if employeeCompany ≠ actorCompany then
    .error "Not authorized to process this payment"
  else if 1 < now - p.createdAt then
    .error "Approval window has expired (1 hour after payment creation)"
  else
    match action with
    | .approve =>
      .ok ({ p with
             status := "approved", approvedBy := some actorId,
             approvedAt := some now }, balance)
    | .decline =>
      .ok ({ p with
             status := "declined", declinedBy := some actorId,
             declinedAt := some now, declineReason := reason,
             requiresAdminReview := true }, balance)

/-- The admin action in `finalizePayment`. -/
inductive FinalizeAction where
  | approve
  | reject
deriving DecidableEq, Repr

/-- Embedding of `finalizePayment` from
`src/controllers/paymentController.js` (lines 245-333), the admin review
endpoint.  Only payments flagged `requiresAdminReview` are processed.  On
approve the company balance is checked against the amount (insufficient
balance is rejected with no state change), the transfer collaborator is
invoked (`transferOk`, `transferRef`, `transferErr` model its outcome), and
on success the status becomes "approved" with the balance debited once; a
transfer error yields status "failed" with no debit.  Reject sets status
"rejected".  Either way the review flag is cleared. -/
def finalizePayment (now : ℚ) (adminId : Nat) (action : FinalizeAction)
    (transferOk : Bool) (transferRef : Nat) (transferErr : String)
    (p : Payment) (balance : ℚ) : Except String (Payment × ℚ) :=
  if ¬ p.requiresAdminReview then
    .error "This payment does not require admin review"
  else
    match action with
    | .approve =>
      if balance < p.amount then
        .error "Insufficient company balance"
      else if transferOk then
        .ok ({ p with
               status := "approved", approvedBy := some adminId,
               approvedAt := some now, transactionReference := some transferRef,
               requiresAdminReview := false }, balance - p.amount)
      else
        .ok ({ p with
               status := "failed", failureReason := some transferErr,
               requiresAdminReview := false }, balance)
    | .reject =>
      .ok ({ p with
             status := "rejected", rejectedBy := some adminId,
             rejectedAt := some now, requiresAdminReview := false }, balance)

/-- An employee as the end-of-day payment job sees it: identity, company,
active flag, optional monthly salary, and the scheduled working weekdays. -/
structure JobEmployee where
  id : Nat
  company : Nat
  active : Bool
  salary : Option ℚ := none
  workingDays : List Nat := []
deriving DecidableEq, Repr

/-- Embedding of the per-employee body of `processDailyPayments` from
`src/jobs/scheduledTasks.js` (lines 276-340), the end-of-day payment
creation job.  Eligibility: active employee with a salary, today among the
working days, and an attendance record with both clock-in and clock-out.
The daily rate comes from `calculateDailyPayRate` over the salary and
`workingDays.length * 4`; the day efficiency routes the new payment to
status "pending_approval" (efficiency at least 70) or "needs_review".
The job performs no lookup of existing payments: it always appends. -/
def jobCreatePayment (day dayOfWeek : Nat) (now : ℚ) (e : JobEmployee)
    (attendance : Option AttendanceRecord) (payments : List Payment) :
    List Payment :=
  if ¬ (e.active ∧ e.salary ≠ none) then payments
  else if ¬ dayOfWeek ∈ e.workingDays then payments
  else
    match attendance with
    | none => payments
    | some a =>
      if a.clockInTime = none ∨ a.clockOutTime = none then payments
      else
        let dailyRate := calculateDailyPayRate e.salary
          (some ((e.workingDays.length : ℚ) * 4))
        let eff := dayEfficiency a
        payments ++ [{
          employee := e.id, company := e.company,
          amount := dailyRate, day := day, createdAt := now,
          status := if 70 ≤ eff then "pending_approval" else "needs_review",
          efficiency := eff }]

/-- Embedding of the per-employee body of `processDailyPayments` from
`src/controllers/paymentController.js` (lines 50-126), the admin endpoint
variant of payment creation.  It first looks for an existing payment for
the same employee and day and skips when one exists; otherwise, when the
company balance is below the daily rate it records a "failed" payment with
an insufficient-balance reason, and when it is sufficient it records a
"pending" payment. -/
def adminCreatePayment (day : Nat) (now : ℚ) (e : JobEmployee)
    (balance dailyRate : ℚ) (payments : List Payment) : List Payment :=
  if payments.any fun p => decide (p.employee = e.id ∧ p.day = day) then
    payments
  else if balance < dailyRate then
    payments ++ [{
      employee := e.id, company := e.company, amount := dailyRate,
      day := day, createdAt := now, status := "failed",
      failureReason := some "Insufficient company balance" }]
  else
    payments ++ [{
      employee := e.id, company := e.company, amount := dailyRate,
      day := day, createdAt := now, status := "pending" }]

/-- Embedding of the per-payment body of `handlePendingPayments` from
`src/jobs/scheduledTasks.js` (lines 493-576), the escalation sweep.  It
selects only payments with status "pending_approval" created more than one
hour before the sweep, sends them to the transfer collaborator with no
balance check, and records "paid" (with reference and payment date) or
"failed" (with a note).  Payments with status "needs_review" past the same
deadline only trigger an admin notification email and are left unchanged;
every other payment, in particular one with status "pending", is not
selected at all. -/
def sweepPayment (now : ℚ) (transferOk : Bool) (transferRef : Nat)
    (transferErr : String) (p : Payment) : Payment :=
  if p.status = "pending_approval" ∧ p.createdAt < now - 1 then
    if transferOk then
      { p with
        status := "paid", transactionReference := some transferRef,
        paymentDate := some now }
    else
      { p with
        status := "failed",
        notes := some ("Automatic payment failed: " ++ transferErr) }
  else if p.status = "needs_review" ∧ p.createdAt < now - 1 then
    p
  else p

/-- Update the first element of a list satisfying `p` by `f`, leaving the
rest unchanged: the effect of a `findOne` followed by a `save` of the found
document. -/
def updateFirst (p : AttendanceRecord → Bool)
    (f : AttendanceRecord → AttendanceRecord) :
    List AttendanceRecord → List AttendanceRecord
  | [] => []
  | a :: rest => if p a then f a :: rest else a :: updateFirst p f rest

/-- Key predicate: the record belongs to the given employee and day. -/
def keyMatch (emp day : Nat) (a : AttendanceRecord) : Bool :=
  decide (a.employee = emp ∧ a.day = day)

/-- Open-record predicate: the record belongs to the given employee and day
and has no clock-out (the `clockOutTime: null` Mongo query, which matches a
missing field as well). -/
def openMatch (emp day : Nat) (a : AttendanceRecord) : Bool :=
  decide (a.employee = emp ∧ a.day = day ∧ a.clockOutTime = none)

/-- Embedding of `clockIn` from `src/controllers/employeeController.js`
(lines 107-172), after the face-verification steps: reject when a record
for the employee and day with no clock-out exists, otherwise create a brand
new attendance record carrying only the clock-in time. -/
def clockIn (emp day : Nat) (now : ℚ) (st : List AttendanceRecord) :
    Except String (List AttendanceRecord) :=
  if st.any (openMatch emp day) then
    .error "Already clocked in. Please clock out first."
  else
    .ok (st ++ [{ employee := emp, day := day, clockInTime := some now }])

/-- Embedding of `clockOut` from `src/controllers/employeeController.js`
(lines 177-232), after the face-verification steps: find the record for the
employee and day with no clock-out; reject when none exists, otherwise set
its clock-out time. -/
def clockOut (emp day : Nat) (now : ℚ) (st : List AttendanceRecord) :
    Except String (List AttendanceRecord) :=
  if st.any (openMatch emp day) then
    .ok (updateFirst (openMatch emp day)
      (fun a => { a with clockOutTime := some now }) st)
  else
    .error "No active clock-in found. Please clock in first."

/-- Outcome of the presence-capture collaborator for one monitoring event. -/
inductive CaptureResult where
  | failed
  | captured (isMatch : Bool)
deriving DecidableEq, Repr

/-- Embedding of `monitorEmployee` from `src/jobs/scheduledTasks.js`
(lines 143-253): do nothing for an inactive employee; when no attendance
record for the day exists, create one carrying a single absent monitoring
result; when a record exists but has no clock-in, append an absent result
to it; otherwise skip during a break, and else append a result recording
the capture outcome (a capture failure counts as not present). -/
def monitorEmployee (emp day : Nat) (now : ℚ) (active inBreak : Bool)
    (capture : CaptureResult) (st : List AttendanceRecord) :
    List AttendanceRecord :=
  if ¬ active then st
  else if st.all fun a => ! keyMatch emp day a then
    st ++ [{
      employee := emp, day := day,
      monitoringResults := [{ time := now, isPresent := false }] }]
  else
    updateFirst (keyMatch emp day)
      (fun a =>
        if a.clockInTime = none then
          { a with monitoringResults :=
              a.monitoringResults ++ [{ time := now, isPresent := false }] }
        else if inBreak then a
        else
          match capture with
          | .failed =>
            { a with monitoringResults :=
                a.monitoringResults ++ [{ time := now, isPresent := false }] }
          | .captured isMatch =>
            { a with monitoringResults :=
                a.monitoringResults ++ [{ time := now, isPresent := isMatch }] })
      st

/-- Number of open (no clock-out) attendance records for one employee and
day. -/
def openCount (st : List AttendanceRecord) (emp day : Nat) : Nat :=
  st.countP (openMatch emp day)

/-- Number of attendance records (open or closed) for one employee and
day. -/
def recordCount (st : List AttendanceRecord) (emp day : Nat) : Nat :=
  st.countP (keyMatch emp day)

/-- Invariant: at most one open attendance record per employee and day. -/
def atMostOneOpen (st : List AttendanceRecord) : Prop :=
  ∀ emp day, openCount st emp day ≤ 1

end WB

namespace WB

/-- Rounding is monotone (used for the score and pay-rate bounds). -/
theorem round_le_round_of_le {x y : ℚ} (h : x ≤ y) : round x ≤ round y := by
  rw [round_eq, round_eq]
  exact Int.floor_mono (by linarith)

/-- The selection loop returns exactly `min k pool.length` elements. -/
theorem drawDistinct_length (k : Nat) : ∀ (pick : Nat → Nat) (pool : List Nat),
    (drawDistinct pick k pool).length = min k pool.length := by
  induction k with
  | zero => intro pick pool; simp [drawDistinct]
  | succ k ih =>
    intro pick pool
    match pool with
    | [] => simp [drawDistinct]
    | a :: rest =>
      have hidx : pick 0 % (a :: rest).length < (a :: rest).length :=
        Nat.mod_lt _ (by simp)
      simp only [drawDistinct, List.length_cons, ih, List.length_eraseIdx]
      simp only [List.length_cons] at hidx ⊢
      rw [if_pos hidx]
      omega

/-- Every element the selection loop returns comes from the pool. -/
theorem mem_of_mem_drawDistinct (k : Nat) :
    ∀ (pick : Nat → Nat) (pool : List Nat) (x : Nat),
      x ∈ drawDistinct pick k pool → x ∈ pool := by
  induction k with
  | zero => intro pick pool x h; simp [drawDistinct] at h
  | succ k ih =>
    intro pick pool x h
    match pool with
    | [] => simp [drawDistinct] at h
    | a :: rest =>
      have hidx : pick 0 % (a :: rest).length < (a :: rest).length :=
        Nat.mod_lt _ (by simp)
      simp only [drawDistinct, List.mem_cons] at h
      rcases h with h | h
      · rw [h, List.getD_eq_getElem _ _ hidx]
        exact List.getElem_mem hidx
      · exact List.eraseIdx_subset _ _ (ih _ _ _ h)

/-- The selection loop never returns the same element twice (the source
splices each picked element out of the pool). -/
theorem nodup_drawDistinct (k : Nat) : ∀ (pick : Nat → Nat) (pool : List Nat),
    pool.Nodup → (drawDistinct pick k pool).Nodup := by
  induction k with
  | zero => intro pick pool _; simp [drawDistinct]
  | succ k ih =>
    intro pick pool hnd
    match pool with
    | [] => simp [drawDistinct]
    | a :: rest =>
      have hidx : pick 0 % (a :: rest).length < (a :: rest).length :=
        Nat.mod_lt _ (by simp)
      simp only [drawDistinct]
      rw [List.nodup_cons]
      refine ⟨?_, ih _ _ (hnd.eraseIdx _)⟩
      intro hmem
      have h1 := mem_of_mem_drawDistinct _ _ _ _ hmem
      rw [List.getD_eq_getElem _ _ hidx] at h1
      rw [List.mem_eraseIdx_iff_getElem] at h1
      obtain ⟨i, hi, hne, heq⟩ := h1
      exact hne ((hnd.getElem_inj_iff).mp heq)

/-- Characterization of `isWorkingHour`: accepted exactly when the time is
inside the closed work window and strictly inside no break. -/
theorem isWorkingHour_eq_true {t s e : Nat} {br : List BreakPeriod} :
    isWorkingHour t s e br = true ↔
      s ≤ t ∧ t ≤ e ∧ ∀ b ∈ br, ¬ (b.startTime < t ∧ t < b.endTime) := by
  unfold isWorkingHour
  split_ifs with h1 h2
  · simp only [false_iff, not_and, not_forall]
    intro hst
    omega
  · rw [List.any_eq_true] at h2
    obtain ⟨b, hb, hbt⟩ := h2
    simp only [decide_eq_true_eq] at hbt
    simp only [false_iff]
    rintro ⟨-, -, hall⟩
    exact hall b hb hbt
  · simp only [true_iff]
    refine ⟨by omega, by omega, ?_⟩
    intro b hb hbt
    exact h2 (List.any_eq_true.mpr ⟨b, hb, by simpa using hbt⟩)

/-- Membership in the candidate-minute list is exactly acceptance by
`isWorkingHour`. -/
theorem mem_eligibleMinutes {s e t : Nat} {br : List BreakPeriod} :
    t ∈ eligibleMinutes s e br ↔ isWorkingHour t s e br = true := by
  unfold eligibleMinutes
  split_ifs with h
  · simp only [List.not_mem_nil, false_iff]
    intro hw
    obtain ⟨h1, h2, -⟩ := isWorkingHour_eq_true.mp hw
    omega
  · simp only [List.mem_filter, List.mem_map, List.mem_range]
    constructor
    · rintro ⟨⟨i, hi, rfl⟩, hw⟩
      exact hw
    · intro hw
      obtain ⟨h1, h2, -⟩ := isWorkingHour_eq_true.mp hw
      exact ⟨⟨t - s, by omega, by omega⟩, hw⟩

/-- The candidate-minute list has no duplicates. -/
theorem nodup_eligibleMinutes (s e : Nat) (br : List BreakPeriod) :
    (eligibleMinutes s e br).Nodup := by
  unfold eligibleMinutes
  split_ifs
  · simp
  · exact ((List.nodup_range _).map fun i j hij => by omega).filter _

end WB

namespace WB

/-- Updating the first match cannot increase a count, provided the update
never makes the counted predicate become true. -/
theorem countP_updateFirst_le (p q : AttendanceRecord → Bool)
    (f : AttendanceRecord → AttendanceRecord)
    (hf : ∀ a, q (f a) = true → q a = true) :
    ∀ l : List AttendanceRecord,
      (updateFirst p f l).countP q ≤ l.countP q := by
  intro l
  induction l with
  | nil => simp [updateFirst]
  | cons a rest ih =>
    by_cases h : p a = true
    · simp only [updateFirst, if_pos h, List.countP_cons]
      have hle : (if q (f a) = true then 1 else 0) ≤ (if q a = true then 1 else 0) := by
        by_cases hq : q (f a) = true
        · simp [hq, hf a hq]
        · simp only [hq, if_false]
          exact Nat.zero_le _
      exact Nat.add_le_add_left hle _
    · simp only [updateFirst, if_neg h, List.countP_cons]
      exact Nat.add_le_add_right ih _

/-- Updating the first match leaves a count unchanged when the update is
invisible to the counted predicate. -/
theorem countP_updateFirst_eq (p q : AttendanceRecord → Bool)
    (f : AttendanceRecord → AttendanceRecord)
    (hf : ∀ a, q (f a) = q a) :
    ∀ l : List AttendanceRecord,
      (updateFirst p f l).countP q = l.countP q := by
  intro l
  induction l with
  | nil => simp [updateFirst]
  | cons a rest ih =>
    simp only [updateFirst]
    split_ifs with h
    · simp [List.countP_cons, hf a]
    · simp [List.countP_cons, ih]

/-- The efficiency percentage is never negative. -/
theorem calculateEfficiency_nonneg (present total : Nat) :
    0 ≤ calculateEfficiency present total := by
  unfold calculateEfficiency round2
  split_ifs with h
  · exact le_refl 0
  · have h1 : (0 : ℚ) ≤ (present : ℚ) / (total : ℚ) * 100 * 100 := by positivity
    have h2 : round (0 : ℚ) ≤ round ((present : ℚ) / (total : ℚ) * 100 * 100) :=
      round_le_round_of_le h1
    rw [round_zero] at h2
    have h3 : (0 : ℚ) ≤ ((round ((present : ℚ) / (total : ℚ) * 100 * 100) : ℤ) : ℚ) := by
      exact_mod_cast h2
    positivity

/-- The efficiency percentage never exceeds 100 when the present count is
at most the total count. -/
theorem calculateEfficiency_le_100 (present total : Nat) (h : present ≤ total) :
    calculateEfficiency present total ≤ 100 := by
  unfold calculateEfficiency round2
  split_ifs with h0
  · norm_num
  · have ht : (0 : ℚ) < (total : ℚ) := by
      exact_mod_cast Nat.pos_of_ne_zero h0
    have h1 : (present : ℚ) / (total : ℚ) ≤ 1 := by
      rw [div_le_one ht]
      exact_mod_cast h
    have h2 : (present : ℚ) / (total : ℚ) * 100 * 100 ≤ 10000 := by nlinarith
    have h3 : round ((present : ℚ) / (total : ℚ) * 100 * 100) ≤ round (10000 : ℚ) :=
      round_le_round_of_le h2
    have h4 : round (10000 : ℚ) = 10000 := by
      rw [show ((10000 : ℚ)) = ((10000 : ℤ) : ℚ) by norm_num, round_intCast]
    rw [h4] at h3
    rw [div_le_iff₀ (by norm_num : (0:ℚ) < 100)]
    calc ((round ((present : ℚ) / (total : ℚ) * 100 * 100) : ℤ) : ℚ)
        ≤ ((10000 : ℤ) : ℚ) := by exact_mod_cast h3
      _ = 100 * 100 := by norm_num

/-- Evaluation of the approve branch of the employer endpoint inside the
approval window: it always succeeds, never reads the balance, and returns
it unchanged. -/
theorem processDailyPayment_approve_eval (now : ℚ) (actorId company : Nat)
    (p : Payment) (balance : ℚ) (hwindow : now - p.createdAt ≤ 1) :
    processDailyPayment now actorId company .approve none p company balance =
      .ok ({ p with
             status := "approved", approvedBy := some actorId,
             approvedAt := some now }, balance) := by
  unfold processDailyPayment
  rw [if_neg (by simp), if_neg (by simp), if_neg (not_lt.mpr hwindow)]

/-- Evaluation of the decline branch of the employer endpoint inside the
approval window, with a reason given. -/
theorem processDailyPayment_decline_eval (now : ℚ) (actorId company : Nat)
    (p : Payment) (balance : ℚ) (r : String) (hwindow : now - p.createdAt ≤ 1) :
    processDailyPayment now actorId company .decline (some r) p company balance =
      .ok ({ p with
             status := "declined", declinedBy := some actorId,
             declinedAt := some now, declineReason := some r,
             requiresAdminReview := true }, balance) := by
  unfold processDailyPayment
  rw [if_neg (by simp), if_neg (by simp), if_neg (not_lt.mpr hwindow)]

end WB

namespace WB

/-- C4, counterexample: on the very scenario of the claim (clock-in and
clock-out present, 8 of 10 monitoring events present, one progress report)
the code computes `calculateEfficiency 8 10 = 80`, not the composite
`30 + round(50*8/10) + 20 = 90` the claim describes; the code has no
attendance or reporting sub-scores at all. -/
theorem C4_efficiency_counterexample :
    dayEfficiency
      { employee := 1, day := 0, clockInTime := some 9,
        clockOutTime := some 17,
        monitoringResults := [⟨0, true⟩, ⟨1, true⟩, ⟨2, true⟩, ⟨3, true⟩,
          ⟨4, true⟩, ⟨5, true⟩, ⟨6, true⟩, ⟨7, true⟩, ⟨8, false⟩, ⟨9, false⟩],
        progressReport := true } = 80 ∧
    specCompositeScore
      { employee := 1, day := 0, clockInTime := some 9,
        clockOutTime := some 17,
        monitoringResults := [⟨0, true⟩, ⟨1, true⟩, ⟨2, true⟩, ⟨3, true⟩,
          ⟨4, true⟩, ⟨5, true⟩, ⟨6, true⟩, ⟨7, true⟩, ⟨8, false⟩, ⟨9, false⟩],
        progressReport := true } 10 = 90 ∧
    (80 : ℚ) ≠ 90 := by
  refine ⟨?_, ?_, by norm_num⟩
  · unfold dayEfficiency
    norm_num [calculateEfficiency, round2, round_eq, List.countP_cons]
  · unfold specCompositeScore
    norm_num [round_eq, List.countP_cons]

/-- C4, amended: the efficiency score is a rational, not necessarily an
integer; it is `0` when no monitoring events were recorded, it equals the
plain presence percentage `(present/total)*100` rounded to two decimals
(so 8 present among 10 events yields 80), and it lies in `[0, 100]`
whenever the present count is at most the event count.  No clock-in or
progress-report bonus exists. -/
theorem C4_efficiency_amended :
    calculateEfficiency 8 10 = 80 ∧
    (∀ present : Nat, calculateEfficiency present 0 = 0) ∧
    (∀ present total : Nat, 0 ≤ calculateEfficiency present total) ∧
    (∀ present total : Nat, present ≤ total →
      calculateEfficiency present total ≤ 100) := by
  refine ⟨by norm_num [calculateEfficiency, round2, round_eq], ?_, ?_, ?_⟩
  · intro present
    simp [calculateEfficiency]
  · intro present total
    exact calculateEfficiency_nonneg present total
  · intro present total h
    exact calculateEfficiency_le_100 present total h

/-- C4, witness for the amended theorem at present 3, total 5. -/
theorem C4_efficiency_amended_witness :
    calculateEfficiency 3 5 ≤ 100 :=
  C4_efficiency_amended.2.2.2 3 5 (by norm_num)

/-- C10: `calculateDailyPayRate` is total over the rationals: it returns 0
when either argument is missing or zero (the division is guarded), returns
the quotient rounded to two decimal places otherwise, and its result is
always an integer number of hundredths, hence a finite well-defined
amount. -/
theorem C10_payrate_total (s d : Option ℚ) :
    (s = none ∨ d = none ∨ s = some 0 ∨ d = some 0 →
      calculateDailyPayRate s d = 0) ∧
    (∀ a b : ℚ, s = some a → d = some b → a ≠ 0 → b ≠ 0 →
      calculateDailyPayRate s d = ((round (a / b * 100) : ℤ) : ℚ) / 100) ∧
    ∃ n : ℤ, calculateDailyPayRate s d = (n : ℚ) / 100 := by
  refine ⟨?_, ?_, ?_⟩
  · intro h
    rcases s with _ | a
    · simp [calculateDailyPayRate]
    · rcases d with _ | b
      · simp [calculateDailyPayRate]
      · rcases h with h | h | h | h
        · exact absurd h (by simp)
        · exact absurd h (by simp)
        · have : a = 0 := by simpa using h
          simp [calculateDailyPayRate, this]
        · have : b = 0 := by simpa using h
          simp [calculateDailyPayRate, this]
  · intro a b hs hd ha hb
    subst hs
    subst hd
    simp only [calculateDailyPayRate, round2]
    rw [if_neg (by tauto)]
  · rcases s with _ | a
    · exact ⟨0, by simp [calculateDailyPayRate]⟩
    · rcases d with _ | b
      · exact ⟨0, by simp [calculateDailyPayRate]⟩
      · by_cases h : a = 0 ∨ b = 0
        · exact ⟨0, by simp [calculateDailyPayRate, h]⟩
        · exact ⟨round (a / b * 100), by simp [calculateDailyPayRate, h, round2]⟩

/-- C10, witness: a monthly salary of 1000 over 20 working days gives a
daily rate of 50. -/
theorem C10_payrate_total_witness :
    calculateDailyPayRate (some 1000) (some 20) =
      ((round ((1000 : ℚ) / 20 * 100) : ℤ) : ℚ) / 100 :=
  (C10_payrate_total (some 1000) (some 20)).2.1 1000 20 rfl rfl
    (by norm_num) (by norm_num)

/-- C5, counterexample: with work window 0..2 and the single break
interval 0..2 (valid: inside the window), the planner returns the minutes
0 and 2, so it returns the work-end minute itself (outside the half-open
window of the claim) and the break-start minute 0 (inside the break
interval of the claim). -/
theorem C5_planner_counterexample :
    generateRandomMonitoringTimes (fun _ => 0) 0 2 [⟨0, 2⟩] 2 = [0, 2] ∧
    ¬ (∀ t ∈ generateRandomMonitoringTimes (fun _ => 0) 0 2 [⟨0, 2⟩] 2,
        t < 2 ∧ ∀ b ∈ [BreakPeriod.mk 0 2], ¬ (b.startTime ≤ t ∧ t < b.endTime)) := by
  constructor
  · decide
  · decide

/-- C5, amended: for a valid window every returned instant lies in the
CLOSED interval from work start to work end and strictly inside no break
(boundary minutes of a break can be returned); the list is strictly
ascending (hence duplicate-free), and its length is the minimum of the
target count and the number of code-eligible minutes (minutes of the
closed window not strictly inside a break). -/
theorem C5_planner_amended (pick : Nat → Nat) (s e count : Nat)
    (br : List BreakPeriod) (hse : s < e) :
    (∀ t ∈ generateRandomMonitoringTimes pick s e br count,
        s ≤ t ∧ t ≤ e ∧ ∀ b ∈ br, ¬ (b.startTime < t ∧ t < b.endTime)) ∧
    List.Sorted (· < ·) (generateRandomMonitoringTimes pick s e br count) ∧
    (generateRandomMonitoringTimes pick s e br count).length =
      min count (eligibleMinutes s e br).length := by
  unfold generateRandomMonitoringTimes
  have hperm := List.perm_insertionSort (· ≤ ·)
    (drawDistinct pick count (eligibleMinutes s e br))
  refine ⟨?_, ?_, ?_⟩
  · intro t ht
    have ht2 : t ∈ drawDistinct pick count (eligibleMinutes s e br) :=
      hperm.mem_iff.mp ht
    have ht3 := mem_of_mem_drawDistinct _ _ _ _ ht2
    exact isWorkingHour_eq_true.mp (mem_eligibleMinutes.mp ht3)
  · refine List.Sorted.lt_of_le (List.sorted_insertionSort _ _) ?_
    exact hperm.nodup_iff.mpr
      (nodup_drawDistinct _ _ _ (nodup_eligibleMinutes s e br))
  · rw [hperm.length_eq, drawDistinct_length]

/-- C5, witness for the amended theorem on the window 0..2 with no breaks
and target count 1. -/
theorem C5_planner_amended_witness :
    (∀ t ∈ generateRandomMonitoringTimes (fun _ => 0) 0 2 [] 1,
        0 ≤ t ∧ t ≤ 2 ∧ ∀ b ∈ ([] : List BreakPeriod),
          ¬ (b.startTime < t ∧ t < b.endTime)) ∧
    List.Sorted (· < ·) (generateRandomMonitoringTimes (fun _ => 0) 0 2 [] 1) ∧
    (generateRandomMonitoringTimes (fun _ => 0) 0 2 [] 1).length =
      min 1 (eligibleMinutes 0 2 []).length :=
  C5_planner_amended (fun _ => 0) 0 2 1 [] (by norm_num)

end WB

namespace WB

/-- C1, counterexample: a payment in state "pending" with amount 100 is
approved by the employer endpoint although the company balance is 0: no
insufficient-funds rejection, no debit (the returned balance is still 0),
and the resulting status is "approved", never "settling". -/
theorem C1_approve_counterexample :
    processDailyPayment 1 3 7 .approve none
      { employee := 2, company := 7, amount := 100, day := 0,
        createdAt := 0, status := "pending" } 7 0 =
      .ok ({ employee := 2, company := 7, amount := 100, day := 0,
             createdAt := 0, status := "approved", approvedBy := some 3,
             approvedAt := some 1 }, 0) ∧
    (0 : ℚ) < 100 ∧ "approved" ≠ "settling" :=
  ⟨processDailyPayment_approve_eval 1 3 7
    { employee := 2, company := 7, amount := 100, day := 0,
      createdAt := 0, status := "pending" } 0 (by norm_num),
   by norm_num, by decide⟩

/-- C1, amended: for every payment in state "pending" approved within the
one-hour window by an authorized employer, the endpoint succeeds for EVERY
balance (no available-funds precondition), performs no debit (the balance
is returned unchanged), and sets the status to "approved" while recording
the actor and time; it neither transitions to a settling state nor invokes
any transfer collaborator. -/
theorem C1_approve_no_balance_check (now : ℚ) (actorId company : Nat)
    (p : Payment) (balance : ℚ) (hpending : p.status = "pending")
    (hwindow : now - p.createdAt ≤ 1) :
    processDailyPayment now actorId company .approve none p company balance =
      .ok ({ p with
             status := "approved", approvedBy := some actorId,
             approvedAt := some now }, balance) :=
  processDailyPayment_approve_eval now actorId company p balance hwindow

/-- C1, witness for the amended theorem: a concrete pending payment with
zero balance is approved with the balance unchanged. -/
theorem C1_approve_no_balance_check_witness :
    processDailyPayment 1 3 7 .approve none
      { employee := 2, company := 7, amount := 250, day := 0,
        createdAt := 0, status := "pending" } 7 0 =
      .ok ({ employee := 2, company := 7, amount := 250, day := 0,
             createdAt := 0, status := "approved", approvedBy := some 3,
             approvedAt := some 1 }, 0) :=
  C1_approve_no_balance_check 1 3 7
    { employee := 2, company := 7, amount := 250, day := 0,
      createdAt := 0, status := "pending" } 0 rfl (by norm_num)

/-- C2, counterexample: calling approve on a payment already in status
"approved" (not "pending") within the window is NOT rejected with a
not-in-pending-state error: it succeeds and rewrites the status to
"approved" again. -/
theorem C2_approve_nonpending_counterexample :
    "approved" ≠ "pending" ∧
    processDailyPayment 1 3 7 .approve none
      { employee := 2, company := 7, amount := 100, day := 0,
        createdAt := 0, status := "approved" } 7 50 =
      .ok ({ employee := 2, company := 7, amount := 100, day := 0,
             createdAt := 0, status := "approved", approvedBy := some 3,
             approvedAt := some 1 }, 50) :=
  ⟨by decide, processDailyPayment_approve_eval 1 3 7
    { employee := 2, company := 7, amount := 100, day := 0,
      createdAt := 0, status := "approved" } 50 (by norm_num)⟩

/-- C2, amended: the employer endpoint performs no status check at all:
within the window an approve succeeds from ANY current status.  In
particular a second approve of an already approved payment succeeds again
and, since the endpoint never debits, the balance after any number of
approvals is the original balance (no double debit, but also no error). -/
theorem C2_approve_no_status_check (now now2 : ℚ)
    (actorId actorId2 company : Nat) (p : Payment) (balance : ℚ)
    (h1 : now - p.createdAt ≤ 1) (h2 : now2 - p.createdAt ≤ 1) :
    ∀ q bal,
      processDailyPayment now actorId company .approve none p company balance =
        .ok (q, bal) →
      bal = balance ∧ q.status = "approved" ∧
      processDailyPayment now2 actorId2 company .approve none q company bal =
        .ok ({ q with
               status := "approved", approvedBy := some actorId2,
               approvedAt := some now2 }, balance) := by
  intro q bal hq
  rw [processDailyPayment_approve_eval now actorId company p balance h1] at hq
  simp only [Except.ok.injEq, Prod.mk.injEq] at hq
  obtain ⟨hq1, hq2⟩ := hq
  subst hq1
  subst hq2
  exact ⟨rfl, rfl,
    processDailyPayment_approve_eval now2 actorId2 company _ balance h2⟩

/-- C2, witness for the amended theorem on a concrete already-approved
payment: the second approval succeeds and the balance is unchanged. -/
theorem C2_approve_no_status_check_witness :
    (50 : ℚ) = 50 ∧
    Payment.status
      { employee := 2, company := 7, amount := 100, day := 0,
        createdAt := 0, status := "approved", approvedBy := some 3,
        approvedAt := some 1 } = "approved" ∧
    processDailyPayment 1 4 7 .approve none
      { employee := 2, company := 7, amount := 100, day := 0,
        createdAt := 0, status := "approved", approvedBy := some 3,
        approvedAt := some 1 } 7 50 =
      .ok ({ employee := 2, company := 7, amount := 100, day := 0,
             createdAt := 0, status := "approved", approvedBy := some 4,
             approvedAt := some 1 }, 50) :=
  C2_approve_no_status_check 1 1 3 4 7
    { employee := 2, company := 7, amount := 100, day := 0,
      createdAt := 0, status := "pending" } 50
    (by norm_num) (by norm_num)
    { employee := 2, company := 7, amount := 100, day := 0,
      createdAt := 0, status := "approved", approvedBy := some 3,
      approvedAt := some 1 } 50
    (processDailyPayment_approve_eval 1 3 7
      { employee := 2, company := 7, amount := 100, day := 0,
        createdAt := 0, status := "pending" } 50 (by norm_num))

/-- C8, counterexample: a decline with a reason succeeds on a payment whose
status is "approved" (so decline is not restricted to "pending"), and the
resulting status is "declined" with a review flag, not an "admin_review"
status. -/
theorem C8_decline_counterexample :
    "approved" ≠ "pending" ∧ "declined" ≠ "admin_review" ∧
    processDailyPayment 1 3 7 .decline (some "disputed hours")
      { employee := 2, company := 7, amount := 100, day := 0,
        createdAt := 0, status := "approved" } 7 50 =
      .ok ({ employee := 2, company := 7, amount := 100, day := 0,
             createdAt := 0, status := "declined", declinedBy := some 3,
             declinedAt := some 1, declineReason := some "disputed hours",
             requiresAdminReview := true }, 50) :=
  ⟨by decide, by decide, processDailyPayment_decline_eval 1 3 7
    { employee := 2, company := 7, amount := 100, day := 0,
      createdAt := 0, status := "approved" } 50 "disputed hours" (by norm_num)⟩

/-- C8, amended: a decline without a reason is rejected with no state
change; within the window a decline with a reason succeeds from any
status, records who declined, when and why, sets the status to "declined"
(not "admin_review") and raises the requiresAdminReview flag, so an admin
finalize step is still required before any terminal outcome. -/
theorem C8_decline_spec (now : ℚ) (actorId company : Nat) (p : Payment)
    (balance : ℚ) (r : String) (hwindow : now - p.createdAt ≤ 1) :
    processDailyPayment now actorId company .decline none p company balance =
      .error "Reason is required when declining a payment" ∧
    processDailyPayment now actorId company .decline (some r) p company balance =
      .ok ({ p with
             status := "declined", declinedBy := some actorId,
             declinedAt := some now, declineReason := some r,
             requiresAdminReview := true }, balance) := by
  constructor
  · unfold processDailyPayment
    rw [if_pos ⟨rfl, rfl⟩]
  · exact processDailyPayment_decline_eval now actorId company p balance r hwindow

/-- C8, witness for the amended theorem on a concrete pending payment. -/
theorem C8_decline_spec_witness :
    processDailyPayment 1 3 7 .decline none
      { employee := 2, company := 7, amount := 100, day := 0,
        createdAt := 0, status := "pending" } 7 50 =
      .error "Reason is required when declining a payment" ∧
    processDailyPayment 1 3 7 .decline (some "disputed hours")
      { employee := 2, company := 7, amount := 100, day := 0,
        createdAt := 0, status := "pending" } 7 50 =
      .ok ({ employee := 2, company := 7, amount := 100, day := 0,
             createdAt := 0, status := "declined", declinedBy := some 3,
             declinedAt := some 1, declineReason := some "disputed hours",
             requiresAdminReview := true }, 50) :=
  C8_decline_spec 1 3 7
    { employee := 2, company := 7, amount := 100, day := 0,
      createdAt := 0, status := "pending" } 50 "disputed hours" (by norm_num)

end WB

namespace WB

/-- C3, counterexample: the end-of-day job variant of payment creation
performs no existing-payment lookup, so running it twice for the same
worker and day creates two Payment records for that pair. -/
theorem C3_create_counterexample :
    (jobCreatePayment 0 1 18
      { id := 1, company := 7, active := true, salary := some 1000,
        workingDays := [1] }
      (some { employee := 1, day := 0, clockInTime := some 9,
              clockOutTime := some 17 })
      (jobCreatePayment 0 1 18
        { id := 1, company := 7, active := true, salary := some 1000,
          workingDays := [1] }
        (some { employee := 1, day := 0, clockInTime := some 9,
                clockOutTime := some 17 }) [])).countP
      (fun p => decide (p.employee = 1 ∧ p.day = 0)) = 2 := by
  norm_num [jobCreatePayment, List.countP_cons, Option.some_ne_none]

/-- C3, amended: only the admin endpoint is idempotent per (worker, day):
when a payment for that pair already exists it returns the list unchanged.
The end-of-day job checks nothing and appends a fresh payment for every
eligible employee even when a payment for the same (worker, day) already
exists. -/
theorem C3_create_idempotency_split (day dw : Nat) (now : ℚ)
    (e : JobEmployee) (balance rate : ℚ) (a : AttendanceRecord)
    (payments : List Payment)
    (hdup : ∃ p ∈ payments, p.employee = e.id ∧ p.day = day)
    (hact : e.active = true) (hsal : e.salary ≠ none)
    (hdw : dw ∈ e.workingDays)
    (hin : a.clockInTime ≠ none) (hout : a.clockOutTime ≠ none) :
    adminCreatePayment day now e balance rate payments = payments ∧
    (jobCreatePayment day dw now e (some a) payments).length =
      payments.length + 1 := by
  constructor
  · obtain ⟨p, hp, hkey⟩ := hdup
    unfold adminCreatePayment
    rw [if_pos (List.any_eq_true.mpr
      ⟨p, hp, by simp only [decide_eq_true_eq]; exact hkey⟩)]
  · unfold jobCreatePayment
    rw [if_neg (by simp [hact, hsal]), if_neg (by simp [hdw])]
    have hcond : ¬ (a.clockInTime = none ∨ a.clockOutTime = none) := by
      push_neg
      exact ⟨hin, hout⟩
    simp [hcond]

/-- C3, witness for the amended theorem on a one-element payment list. -/
theorem C3_create_idempotency_split_witness :
    adminCreatePayment 0 18
      { id := 1, company := 7, active := true, salary := some 1000,
        workingDays := [1] } 500 50
      [{ employee := 1, company := 7, amount := 50, day := 0,
         createdAt := 18, status := "pending" }] =
      [{ employee := 1, company := 7, amount := 50, day := 0,
         createdAt := 18, status := "pending" }] ∧
    (jobCreatePayment 0 1 18
      { id := 1, company := 7, active := true, salary := some 1000,
        workingDays := [1] }
      (some { employee := 1, day := 0, clockInTime := some 9,
              clockOutTime := some 17 })
      [{ employee := 1, company := 7, amount := 50, day := 0,
         createdAt := 18, status := "pending" }]).length =
      [({ employee := 1, company := 7, amount := 50, day := 0,
          createdAt := 18, status := "pending" } : Payment)].length + 1 :=
  C3_create_idempotency_split 0 1 18
    { id := 1, company := 7, active := true, salary := some 1000,
      workingDays := [1] } 500 50
    { employee := 1, day := 0, clockInTime := some 9,
      clockOutTime := some 17 }
    [{ employee := 1, company := 7, amount := 50, day := 0,
       createdAt := 18, status := "pending" }]
    ⟨{ employee := 1, company := 7, amount := 50, day := 0,
       createdAt := 18, status := "pending" }, by simp, rfl, rfl⟩
    rfl (by simp) (by simp) (by simp) (by simp)

/-- C6, counterexample: a payment in status "pending" whose one-hour
deadline has long elapsed is not touched by the sweep at all: with day
efficiency 85 (above the threshold 70) it is not settled, and with day
efficiency 50 (below the threshold) it is not moved to any admin-review
state either. -/
theorem C6_sweep_counterexample :
    ((0 : ℚ) < 10 - 1) ∧
    sweepPayment 10 true 1 "err"
      { employee := 2, company := 7, amount := 100, day := 0,
        createdAt := 0, status := "pending", efficiency := 85 } =
      { employee := 2, company := 7, amount := 100, day := 0,
        createdAt := 0, status := "pending", efficiency := 85 } ∧
    sweepPayment 10 true 1 "err"
      { employee := 2, company := 7, amount := 100, day := 0,
        createdAt := 0, status := "pending", efficiency := 50 } =
      { employee := 2, company := 7, amount := 100, day := 0,
        createdAt := 0, status := "pending", efficiency := 50 } ∧
    "pending" ≠ "admin_review" ∧ (70 : ℚ) ≤ 85 ∧ (50 : ℚ) < 70 := by
  refine ⟨by norm_num, ?_, ?_, by decide, by norm_num, by norm_num⟩
  · unfold sweepPayment
    rw [if_neg (by rintro ⟨h1, -⟩; exact absurd h1 (by decide)),
      if_neg (by rintro ⟨h1, -⟩; exact absurd h1 (by decide))]
  · unfold sweepPayment
    rw [if_neg (by rintro ⟨h1, -⟩; exact absurd h1 (by decide)),
      if_neg (by rintro ⟨h1, -⟩; exact absurd h1 (by decide))]

/-- C6, amended: the sweep selects only payments in status
"pending_approval" (the status a creation-time efficiency of at least 70
produced) past the one-hour deadline, and settles them with no balance
check and no actor recording: transfer success gives "paid" with the
reference and payment date, transfer failure gives "failed" with a note.
Payments in "needs_review" only trigger an admin notification and keep
their status, and payments in "pending" are never selected. -/
theorem C6_sweep_amended (now : ℚ) (ok : Bool) (ref : Nat) (err : String)
    (p : Payment) :
    (p.status = "pending_approval" → p.createdAt < now - 1 →
      sweepPayment now true ref err p =
        { p with
          status := "paid", transactionReference := some ref,
          paymentDate := some now } ∧
      sweepPayment now false ref err p =
        { p with
          status := "failed",
          notes := some ("Automatic payment failed: " ++ err) }) ∧
    (p.status = "needs_review" → sweepPayment now ok ref err p = p) ∧
    (p.status = "pending" → sweepPayment now ok ref err p = p) := by
  refine ⟨?_, ?_, ?_⟩
  · intro h hdl
    constructor
    · unfold sweepPayment
      rw [if_pos ⟨h, hdl⟩, if_pos rfl]
    · unfold sweepPayment
      rw [if_pos ⟨h, hdl⟩, if_neg (by simp)]
  · intro h
    unfold sweepPayment
    rw [if_neg (by rintro ⟨h1, -⟩; rw [h] at h1; exact absurd h1 (by decide))]
    split_ifs <;> rfl
  · intro h
    unfold sweepPayment
    rw [if_neg (by rintro ⟨h1, -⟩; rw [h] at h1; exact absurd h1 (by decide))]
    split_ifs <;> rfl

/-- C6, witness for the amended theorem on a concrete overdue
pending-approval payment. -/
theorem C6_sweep_amended_witness :
    sweepPayment 10 true 1 "err"
      { employee := 2, company := 7, amount := 100, day := 0,
        createdAt := 0, status := "pending_approval", efficiency := 85 } =
      { employee := 2, company := 7, amount := 100, day := 0,
        createdAt := 0, status := "paid", efficiency := 85,
        transactionReference := some 1, paymentDate := some 10 } ∧
    sweepPayment 10 false 1 "err"
      { employee := 2, company := 7, amount := 100, day := 0,
        createdAt := 0, status := "pending_approval", efficiency := 85 } =
      { employee := 2, company := 7, amount := 100, day := 0,
        createdAt := 0, status := "failed", efficiency := 85,
        notes := some ("Automatic payment failed: " ++ "err") } :=
  (C6_sweep_amended 10 true 1 "err"
    { employee := 2, company := 7, amount := 100, day := 0,
      createdAt := 0, status := "pending_approval", efficiency := 85 }).1
    rfl (by norm_num)

/-- C7, counterexample: a payment stuck in status "pending" stays
"pending" across arbitrarily many sweeps (interval 1, equal to the
one-hour deadline window), and once the window has expired the employer
endpoint rejects any action, so the payment remains "pending" forever. -/
theorem C7_pending_forever_counterexample :
    sweepPayment 2 true 1 "e"
      { employee := 2, company := 7, amount := 100, day := 0,
        createdAt := 0, status := "pending" } =
      { employee := 2, company := 7, amount := 100, day := 0,
        createdAt := 0, status := "pending" } ∧
    sweepPayment 3 true 1 "e"
      { employee := 2, company := 7, amount := 100, day := 0,
        createdAt := 0, status := "pending" } =
      { employee := 2, company := 7, amount := 100, day := 0,
        createdAt := 0, status := "pending" } ∧
    sweepPayment 4 true 1 "e"
      { employee := 2, company := 7, amount := 100, day := 0,
        createdAt := 0, status := "pending" } =
      { employee := 2, company := 7, amount := 100, day := 0,
        createdAt := 0, status := "pending" } ∧
    processDailyPayment 2 3 7 .approve none
      { employee := 2, company := 7, amount := 100, day := 0,
        createdAt := 0, status := "pending" } 7 0 =
      .error "Approval window has expired (1 hour after payment creation)" := by
  refine ⟨?_, ?_, ?_, ?_⟩
  · unfold sweepPayment
    rw [if_neg (by rintro ⟨h1, -⟩; exact absurd h1 (by decide)),
      if_neg (by rintro ⟨h1, -⟩; exact absurd h1 (by decide))]
  · unfold sweepPayment
    rw [if_neg (by rintro ⟨h1, -⟩; exact absurd h1 (by decide)),
      if_neg (by rintro ⟨h1, -⟩; exact absurd h1 (by decide))]
  · unfold sweepPayment
    rw [if_neg (by rintro ⟨h1, -⟩; exact absurd h1 (by decide)),
      if_neg (by rintro ⟨h1, -⟩; exact absurd h1 (by decide))]
  · unfold processDailyPayment
    rw [if_neg (by simp), if_neg (by simp), if_pos (by norm_num)]

/-- C7, amended: the one-sweep liveness bound holds only for payments in
status "pending_approval": any sweep running after their deadline moves
them to "paid" or "failed".  Payments in status "pending" are never
selected by the sweep and can remain "pending" indefinitely. -/
theorem C7_sweep_liveness_amended (now : ℚ) (ok : Bool) (ref : Nat)
    (err : String) (p : Payment)
    (h : p.status = "pending_approval") (hdl : p.createdAt < now - 1) :
    ((sweepPayment now ok ref err p).status = "paid" ∨
     (sweepPayment now ok ref err p).status = "failed") ∧
    ∀ q : Payment, q.status = "pending" →
      ∀ (m : ℚ) (b : Bool) (r : Nat) (s : String),
        sweepPayment m b r s q = q := by
  constructor
  · unfold sweepPayment
    rw [if_pos ⟨h, hdl⟩]
    cases ok
    · right
      rw [if_neg (by simp)]
    · left
      rw [if_pos rfl]
  · intro q hq m b r s
    unfold sweepPayment
    rw [if_neg (by rintro ⟨h1, -⟩; rw [hq] at h1; exact absurd h1 (by decide))]
    split_ifs <;> rfl

/-- C7, witness for the amended theorem on a concrete overdue
pending-approval payment. -/
theorem C7_sweep_liveness_amended_witness :
    ((sweepPayment 10 true 1 "e"
      { employee := 2, company := 7, amount := 100, day := 0,
        createdAt := 0, status := "pending_approval" }).status = "paid" ∨
     (sweepPayment 10 true 1 "e"
      { employee := 2, company := 7, amount := 100, day := 0,
        createdAt := 0, status := "pending_approval" }).status = "failed") ∧
    ∀ q : Payment, q.status = "pending" →
      ∀ (m : ℚ) (b : Bool) (r : Nat) (s : String),
        sweepPayment m b r s q = q :=
  C7_sweep_liveness_amended 10 true 1 "e"
    { employee := 2, company := 7, amount := 100, day := 0,
      createdAt := 0, status := "pending_approval" } rfl (by norm_num)

end WB

namespace WB

/-- C9, counterexample: after a clock-in and a clock-out, a second clock-in
on the same day is accepted and creates a SECOND attendance record for the
same (worker, day) pair, so at-most-one-record-per-worker-per-day fails. -/
theorem C9_attendance_duplicate_counterexample :
    clockIn 1 5 9 [] = .ok [{ employee := 1, day := 5, clockInTime := some 9 }] ∧
    clockOut 1 5 17 [{ employee := 1, day := 5, clockInTime := some 9 }] =
      .ok [{ employee := 1, day := 5, clockInTime := some 9,
             clockOutTime := some 17 }] ∧
    clockIn 1 5 18
      [{ employee := 1, day := 5, clockInTime := some 9,
         clockOutTime := some 17 }] =
      .ok [{ employee := 1, day := 5, clockInTime := some 9,
             clockOutTime := some 17 },
           { employee := 1, day := 5, clockInTime := some 18 }] ∧
    recordCount
      [{ employee := 1, day := 5, clockInTime := some 9,
         clockOutTime := some 17 },
       { employee := 1, day := 5, clockInTime := some 18 }] 1 5 = 2 := by
  refine ⟨?_, ?_, ?_, ?_⟩
  · unfold clockIn
    rw [if_neg (by simp)]
    simp
  · unfold clockOut
    rw [if_pos (by simp [openMatch])]
    simp [updateFirst, openMatch]
  · unfold clockIn
    rw [if_neg (by simp [openMatch])]
    simp
  · simp [recordCount, keyMatch, List.countP_cons]

/-- C9, amended: what the three operations preserve is at most one OPEN
(not clocked-out) attendance record per worker and day: clock-in refuses
when an open record for the day exists and otherwise creates a fresh one;
clock-out closes the first open record; a monitoring event appends to the
first existing record for the day, or creates the single record when none
exists.  (The counterexample shows that at most one record per worker and
day, open or closed, is NOT an invariant: a clock-in after a completed
clock-in/clock-out cycle creates a second record for the same day.) -/
theorem C9_attendance_open_invariant (emp day : Nat) (now : ℚ)
    (active inBreak : Bool) (cap : CaptureResult)
    (st : List AttendanceRecord) (hinv : atMostOneOpen st) :
    (∀ st1, clockIn emp day now st = .ok st1 → atMostOneOpen st1) ∧
    (∀ st1, clockOut emp day now st = .ok st1 → atMostOneOpen st1) ∧
    atMostOneOpen (monitorEmployee emp day now active inBreak cap st) := by
  refine ⟨?_, ?_, ?_⟩
  · intro st1 h
    unfold clockIn at h
    by_cases hany : st.any (openMatch emp day) = true
    · rw [if_pos hany] at h
      exact absurd h (by simp)
    · rw [if_neg hany] at h
      simp only [Except.ok.injEq] at h
      subst h
      intro e d
      unfold openCount
      rw [List.countP_append]
      by_cases hkey : emp = e ∧ day = d
      · have h0 : st.countP (openMatch e d) = 0 := by
          rw [List.countP_eq_zero]
          intro x hx hopen
          apply hany
          rw [List.any_eq_true]
          refine ⟨x, hx, ?_⟩
          obtain ⟨rfl, rfl⟩ := hkey
          exact hopen
        rw [h0]
        simp only [List.countP_cons, List.countP_nil, Nat.zero_add]
        split_ifs <;> omega
      · have h1 : openMatch e d
            { employee := emp, day := day, clockInTime := some now } = false := by
          simp only [openMatch, decide_eq_false_iff_not]
          rintro ⟨ha, hb, -⟩
          exact hkey ⟨ha, hb⟩
        have h2 : List.countP (openMatch e d)
            [{ employee := emp, day := day, clockInTime := some now }] = 0 := by
          simp [h1]
        rw [h2, Nat.add_zero]
        exact hinv e d
  · intro st1 h
    unfold clockOut at h
    by_cases hany : st.any (openMatch emp day) = true
    · rw [if_pos hany] at h
      simp only [Except.ok.injEq] at h
      subst h
      intro e d
      unfold openCount
      refine le_trans (countP_updateFirst_le _ _ _ ?_ st) (hinv e d)
      intro x hx
      exact absurd hx (by simp [openMatch])
    · rw [if_neg hany] at h
      exact absurd h (by simp)
  · unfold monitorEmployee
    by_cases hact : ¬ active = true
    · rw [if_pos hact]
      exact hinv
    · rw [if_neg hact]
      by_cases hall : (st.all fun a => ! keyMatch emp day a) = true
      · rw [if_pos hall]
        intro e d
        unfold openCount
        rw [List.countP_append]
        by_cases hkey : emp = e ∧ day = d
        · have h0 : st.countP (openMatch e d) = 0 := by
            rw [List.countP_eq_zero]
            intro x hx hopen
            have hx2 := List.all_eq_true.mp hall x hx
            simp only [Bool.not_eq_true'] at hx2
            obtain ⟨rfl, rfl⟩ := hkey
            simp only [openMatch, decide_eq_true_eq] at hopen
            simp only [keyMatch, decide_eq_false_iff_not] at hx2
            exact hx2 ⟨hopen.1, hopen.2.1⟩
          rw [h0]
          simp only [List.countP_cons, List.countP_nil, Nat.zero_add]
          split_ifs <;> omega
        · have h1 : openMatch e d
              { employee := emp, day := day,
                monitoringResults := [{ time := now, isPresent := false }] } =
              false := by
            simp only [openMatch, decide_eq_false_iff_not]
            rintro ⟨ha, hb, -⟩
            exact hkey ⟨ha, hb⟩
          have h2 : List.countP (openMatch e d)
              [{ employee := emp, day := day,
                 monitoringResults := [{ time := now, isPresent := false }] }] =
              0 := by
            simp [h1]
          rw [h2, Nat.add_zero]
          exact hinv e d
      · rw [if_neg hall]
        intro e d
        unfold openCount
        rw [countP_updateFirst_eq]
        · exact hinv e d
        · intro x
          by_cases hin : x.clockInTime = none
          · simp [hin, openMatch]
          · by_cases hbr : inBreak = true
            · simp [hin, hbr]
            · cases cap <;> simp [hin, hbr, openMatch]

/-- C9, witness for the amended invariant theorem: one monitoring event on
the empty store leaves at most one open record for the key. -/
theorem C9_attendance_open_invariant_witness :
    openCount (monitorEmployee 1 5 9 true false CaptureResult.failed []) 1 5 ≤ 1 :=
  (C9_attendance_open_invariant 1 5 9 true false CaptureResult.failed []
    (fun e d => by simp [openCount])).2.2 1 5

end WB
